import Mathlib

/-
Verification development for the `ai_diagnostic_agent` repository.

The embedding covers the two core source files:
  * `src/ai_agent/mcp_server.py` — the tool invoker (`invoke_tool`) and the
    JSON-RPC endpoint (`mcp_endpoint`);
  * `src/ai_agent/agent.py` — the action parser and RPC client (`do_action`),
    the conversation-holding `ReActAgent.step`, and the main loop `run_agent`.

Text is modelled as `List Char`; JSON values as the inductive `JVal`;
Python exceptions as the inductive `PyErr` (returned through `Except`
rather than raised, which is the standard shallow embedding of a
`try/except` discipline).  External collaborators (the Groq model call,
the HTTP transport, the tool bodies doing vector search / filesystem IO)
are parameters of the embedded functions, exactly as the spec treats them
(call/return contracts only).
-/

set_option autoImplicit false

namespace AiAgent

/-- Convert a Lean string literal to the `List Char` text representation used
throughout the embedding. -/
def cs (s : String) : List Char := s.toList

/-- Single-quote character (ASCII 39), written via `Char.ofNat`. -/
def sq : Char := Char.ofNat 39

/-- Double-quote character (ASCII 34), written via `Char.ofNat`. -/
def dq : Char := Char.ofNat 34

/-- Python's whitespace set for `str.strip()` and the regex class `\s`
(ASCII part: space, tab, newline, carriage return, vertical tab, form feed). -/
def pyIsSpace (c : Char) : Bool :=
  c = ' ' || c = '\t' || c = '\n' || c = '\r' || c = Char.ofNat 11 || c = Char.ofNat 12

/-- The regex character class `[a-zA-Z0-9_]` from `do_action`'s pattern. -/
def isWordChar (c : Char) : Bool :=
  c.isAlphanum || c = '_'

/-- The character set of Python `strip("'\"")` in `do_action`: a single or a
double quote. -/
def isQuoteChar (c : Char) : Bool :=
  c = sq || c = dq

/-- Python `str.strip(chars)`: remove all leading and all trailing characters
satisfying `p` (note: not just one layer). -/
def pyStripChars (p : Char → Bool) (l : List Char) : List Char :=
  ((l.dropWhile p).reverse.dropWhile p).reverse

/-- Python `str.strip()` (whitespace both ends). -/
def pyStripWs (l : List Char) : List Char :=
  pyStripChars pyIsSpace l

/-- Python `str.split(sep)` for a one-character separator: split on every
occurrence; the empty string yields `[""]`. -/
def splitOnChar (sep : Char) : List Char → List (List Char)
  | [] => [[]]
  | c :: rest =>
    if c = sep then [] :: splitOnChar sep rest
    else
      match splitOnChar sep rest with
      | g :: gs => (c :: g) :: gs
      | [] => [[c]]

/-- Python `str.split(",")` as used on the raw argument text. -/
def splitOnComma (l : List Char) : List (List Char) :=
  splitOnChar ',' l

/-- Python's `needle in haystack` substring test. -/
def hasSub (needle : List Char) : List Char → Bool
  | [] => needle.isEmpty
  | c :: rest => needle.isPrefixOf (c :: rest) || hasSub needle rest

/-- JSON values, as decoded by Flask's `get_json` / `requests`' `.json()`.
Objects are association lists (JSON objects from these libraries have unique
keys). Booleans do not occur in any payload of this system and are omitted. -/
inductive JVal where
  | null
  | str (s : List Char)
  | num (n : Int)
  | arr (xs : List JVal)
  | obj (fields : List (List Char × JVal))

/-- First-match association-list lookup, modelling Python `dict` indexing
(`d[k]` / `k in d`); decoded JSON objects have unique keys. -/
def jLookup (fields : List (List Char × JVal)) (k : List Char) : Option JVal :=
  match fields with
  | [] => none
  | (k', v) :: rest => if k = k' then some v else jLookup rest k

/-- Python `d.get(k, None)` composed with JSON decoding: an absent key and a
present JSON `null` both come out as Python `None`. -/
def jGet (fields : List (List Char × JVal)) (k : List Char) : Option JVal :=
  match jLookup fields k with
  | some JVal.null => none
  | some v => some v
  | none => none

/-- Python exceptions that can cross the embedded `try/except` boundaries.
`str(e)` on the standard exception types yields just the message, modelled by
`PyErr.msg`. -/
inductive PyErr where
  | typeError (m : List Char)
  | valueError (m : List Char)
  | attributeError (m : List Char)
  | other (m : List Char)

/-- `str(e)`: the message text of the exception. -/
def PyErr.msg : PyErr → List Char
  | .typeError m => m
  | .valueError m => m
  | .attributeError m => m
  | .other m => m

/-- Decimal rendering of an integer (Python `str(int)`). -/
def intDigits (n : Int) : List Char :=
  match n with
  | .ofNat m => Nat.toDigits 10 m
  | .negSucc m => '-' :: Nat.toDigits 10 (m + 1)

/-- Join pieces with `", "`, as Python `repr` does inside containers. -/
def joinCommaSep (pieces : List (List Char)) : List Char :=
  List.intercalate (cs ", ") pieces

mutual

/-- Python `repr()` of a JSON-decoded value, as used by `str()` on containers
(strings are modelled for quote-free content: `repr("a") = "'a'"`). -/
def pyRepr : JVal → List Char
  | .null => cs "None"
  | .str s => sq :: (s ++ [sq])
  | .num n => intDigits n
  | .arr xs => '[' :: (joinCommaSep (pyReprList xs) ++ [']'])
  | .obj fs => Char.ofNat 123 :: (joinCommaSep (pyReprPairs fs) ++ [Char.ofNat 125])

/-- `repr` of each element of a list. -/
def pyReprList : List JVal → List (List Char)
  | [] => []
  | v :: vs => pyRepr v :: pyReprList vs

/-- `repr` of each `key: value` entry of a dict. -/
def pyReprPairs : List (List Char × JVal) → List (List Char)
  | [] => []
  | (k, v) :: rest => (sq :: (k ++ [sq]) ++ cs ": " ++ pyRepr v) :: pyReprPairs rest

end

/-- Python `str()` of a JSON-decoded value (f-string conversion): a string is
itself, every other value is its `repr`. -/
def pyStrOf : JVal → List Char
  | .str s => s
  | v => pyRepr v

/-- `str()` of a Python optional (`None` prints as `None`). -/
def pyStrOfPyOpt : Option JVal → List Char
  | none => cs "None"
  | some v => pyStrOf v

/-!
## `mcp_server.py`: tools, `invoke_tool`, `mcp_endpoint`

A `Tool` is a Python callable as the server sees it: `inspect.signature`
exposes its declared parameter names (`params`), and applying it with a
correctly bound argument list runs its body.  The bodies of the three real
tools do vector-database and filesystem IO, so they stay abstract: every
theorem quantifies over the body, which also shows the result does not
depend on it.
-/

/-- A registered tool callable: its `__name__`, its declared parameter list
(in order, as `inspect.signature` reports it), and its body. The body may
itself raise (`Except.error`). -/
structure Tool where
  name : List Char
  params : List (List Char)
  body : List JVal → Except PyErr JVal

/-- Python call semantics for positional application `f(*args)`: if the
argument count matches the declared arity the body runs, otherwise the call
raises `TypeError` at argument binding and the body never runs.  The second
component records whether the body was actually invoked. -/
def callArgs (t : Tool) (args : List JVal) : Except PyErr JVal × Bool :=
  if args.length = t.params.length then (t.body args, true)
  else
    (.error (.typeError (t.name ++ cs "() takes " ++ intDigits t.params.length
      ++ cs " positional arguments but " ++ intDigits args.length ++ cs " were given")), false)

/-- Python keyword application `f(**d)`: every declared parameter must be
supplied by name and there may be no extra keys; values are bound to the
declared parameter order. Binding failure raises `TypeError` without running
the body. (JSON-decoded dicts have unique keys.) -/
def callKwargs (t : Tool) (d : List (List Char × JVal)) : Except PyErr JVal × Bool :=
  match t.params.mapM (fun p => jLookup d p) with
  | some args =>
    if d.length = t.params.length then (t.body args, true)
    else (.error (.typeError (t.name ++ cs "() got an unexpected keyword argument")), false)
  | none =>
    (.error (.typeError (t.name ++ cs "() missing required keyword arguments")), false)

/-- `invoke_tool(tool_func, params)` from `mcp_server.py` (lines 65–90).

The rules, in source order:
1. `input_data = params.get("input", None)`; if `params` is not a dict this
   raises `AttributeError`.
2. `if input_data is None: return tool_func()` — note the source calls the
   tool with no arguments *without* checking its arity.
3. list input of matching arity → positional call;
4. string input against a one-parameter tool → single-argument call;
5. dict input → keyword call;
6. otherwise `raise ValueError(f"Cannot map input ... to function ...")`.

The `Bool` reports whether the tool body was invoked. -/
def invoke_tool (tool_func : Tool) (params : JVal) : Except PyErr JVal × Bool :=
  match params with
  | .obj pfields =>
    match jGet pfields (cs "input") with
    | none => callArgs tool_func []
    | some input_data =>
      match input_data with
      | .arr l =>
        if l.length = tool_func.params.length then callArgs tool_func l
        else
          (.error (.valueError (cs "Cannot map input " ++ pyStrOf (.arr l)
            ++ cs " to function " ++ tool_func.name)), false)
      | .str s =>
        if tool_func.params.length = 1 then callArgs tool_func [.str s]
        else
          (.error (.valueError (cs "Cannot map input " ++ pyStrOf (.str s)
            ++ cs " to function " ++ tool_func.name)), false)
      | .obj d => callKwargs tool_func d
      | other =>
        (.error (.valueError (cs "Cannot map input " ++ pyStrOf other
          ++ cs " to function " ++ tool_func.name)), false)
  | _ =>
    (.error (.attributeError (cs "object has no attribute get")), false)

/-- Lookup in the `tools` registry dict of `mcp_endpoint`. -/
def toolLookup (tools : List (List Char × Tool)) (k : List Char) : Option Tool :=
  match tools with
  | [] => none
  | (n, t) :: rest => if k = n then some t else toolLookup rest k

/-- `data.get("method")` of the endpoint: an absent key or a JSON `null`
value is Python `None`. -/
def methodValOf (fields : List (List Char × JVal)) : Option JVal :=
  jGet fields (cs "method")

/-- `data.get("id")` as it reappears in the response envelope: `jsonify`
renders Python `None` (absent key) as JSON `null`. -/
def idValOf (fields : List (List Char × JVal)) : JVal :=
  (jLookup fields (cs "id")).getD JVal.null

/-- `data.get("params", {})`: the default applies only when the key is
absent; a present JSON `null` stays (and later raises inside
`invoke_tool`, as `None.get` does in Python). -/
def paramsValOf (fields : List (List Char × JVal)) : JVal :=
  (jLookup fields (cs "params")).getD (JVal.obj [])

/-- The successfully resolved tool of a request: `toolOf … = some t` exactly
when the method value is a string registered in the mapping.  Used to state
registered-method hypotheses. -/
def toolOf (tools : List (List Char × Tool)) (fields : List (List Char × JVal)) : Option Tool :=
  match methodValOf fields with
  | some (.str s) => toolLookup tools s
  | _ => none

/-- The membership test `method not in tools` (line 113) followed by
`tools[method]`, faithfully: a JSON array or object as method value is an
unhashable Python value, so the membership test itself raises `TypeError`
(caught by the endpoint's `except`); `None`, numbers and unregistered
strings are hashable but are not keys of the string-keyed registry; a
registered string resolves to its tool. -/
def methodLookup (tools : List (List Char × Tool)) (mv : Option JVal) :
    Except PyErr (Option Tool) :=
  match mv with
  | some (.arr _) =>
    .error (.typeError (cs "unhashable type: " ++ [sq] ++ cs "list" ++ [sq]))
  | some (.obj _) =>
    .error (.typeError (cs "unhashable type: " ++ [sq] ++ cs "dict" ++ [sq]))
  | some (.str s) => .ok (toolLookup tools s)
  | _ => .ok none

/-- A JSON-RPC error envelope as `mcp_endpoint` builds it with `jsonify`. -/
def errorEnvelope (idv : JVal) (code : Int) (msg : List Char) : JVal :=
  .obj [(cs "jsonrpc", .str (cs "2.0")), (cs "id", idv),
        (cs "error", .obj [(cs "code", .num code), (cs "message", .str msg)])]

/-- A JSON-RPC success envelope as `mcp_endpoint` builds it with `jsonify`. -/
def resultEnvelope (idv : JVal) (v : JVal) : JVal :=
  .obj [(cs "jsonrpc", .str (cs "2.0")), (cs "id", idv), (cs "result", v)]

/-- `mcp_endpoint()` from `mcp_server.py` (lines 97–138), parametrised by the
tool registry.  The request body arrives as the outcome of
`request.get_json(force=True)` (`Except.error` = the parse raised).  The
whole body of the route sits in one `try`, whose `except` returns the
`id: null` / `-32603` envelope, so the function is total: no failure
escapes.  The `Bool` reports whether any tool body was invoked. -/
def mcp_endpoint (tools : List (List Char × Tool)) (reqBody : Except PyErr JVal) :
    JVal × Bool :=
  match reqBody with
  | .error e => (errorEnvelope JVal.null (-32603) e.msg, false)
  | .ok data =>
    match data with
    | .obj fields =>
      match methodLookup tools (methodValOf fields) with
      | .error e => (errorEnvelope JVal.null (-32603) e.msg, false)
      | .ok none =>
        (errorEnvelope (idValOf fields) (-32601)
          (cs "Unknown method: " ++ pyStrOfPyOpt (methodValOf fields)), false)
      | .ok (some t) =>
        match invoke_tool t (paramsValOf fields) with
        | (.ok v, inv) => (resultEnvelope (idValOf fields) v, inv)
        | (.error e, inv) => (errorEnvelope JVal.null (-32603) e.msg, inv)
    | _ => (errorEnvelope JVal.null (-32603) (cs "object has no attribute get"), false)

/-!
## `agent.py`: action parsing, the RPC client, and the agent loop

The parsing phase of `do_action` is
`re.search(r"Action:\s*([a-zA-Z0-9_]+)(?::\s*(.+))?", result)`.
`re.search` tries each start position left to right; the pattern begins with
the literal `Action:`, then greedy `\s*` (which crosses newlines), a
non-empty run of word characters (group 1), and optionally a colon followed
by `\s*` and a non-empty run `(.+)` of non-newline characters (group 2,
greedy, with backtracking into the preceding `\s*`).
-/

/-- The optional argument part `\s*(.+)` after the second colon: greedy
whitespace first, then at least one non-newline character, backtracking the
whitespace from the right when everything left is whitespace.  Returns the
matched group 2, or `none` when the group cannot match (then the optional
group as a whole is simply skipped). -/
def matchArgGroup (l : List Char) : Option (List Char) :=
  let rest := l.dropWhile pyIsSpace
  if !rest.isEmpty then some (rest.takeWhile (fun c => c != '\n'))
  else
    match l.foldl (fun acc c => if c != '\n' then some c else acc) none with
    | some ch => some [ch]
    | none => none

/-- Python `", ".split` step of `do_action`: split the raw argument text on
commas and strip whitespace, then quote characters, from each piece. -/
def parseArgs (raw : List Char) : List (List Char) :=
  (splitOnComma raw).map (fun a => pyStripChars isQuoteChar (pyStripChars pyIsSpace a))

/-- Try to match the regex tail right after the literal `Action:`:
`\s*` then group 1 `[a-zA-Z0-9_]+`, then the optional `(?::\s*(.+))?`.
Returns `(tool, args)` on success (`args` already split and stripped, empty
when group 2 did not participate, matching `if raw_args:` in the source). -/
def matchFrom (l : List Char) : Option (List Char × List (List Char)) :=
  let l1 := l.dropWhile pyIsSpace
  let tool := l1.takeWhile isWordChar
  if tool.isEmpty then none
  else
    match l1.dropWhile isWordChar with
    | ':' :: l3 =>
      match matchArgGroup l3 with
      | some raw => some (tool, parseArgs raw)
      | none => some (tool, [])
    | _ => some (tool, [])

/-- The `re.search` scan: try every position, leftmost successful match
wins; a position can only match if the text there starts with `Action:`. -/
def findActionFrom : List Char → Option (List Char × List (List Char))
  | [] => none
  | c :: rest =>
    if (cs "Action:").isPrefixOf (c :: rest) then
      match matchFrom (List.drop 7 (c :: rest)) with
      | some r => some r
      | none => findActionFrom rest
    else findActionFrom rest

/-- The parsing phase of `do_action` (`agent.py` lines 55–68): `none` models
the Python `return None` on no match. -/
def parseAction (result : List Char) : Option (List Char × List (List Char)) :=
  findActionFrom result

/-- What the HTTP exchange of `do_action` can produce: either some exception
out of `requests.post` / `raise_for_status` / `.json()` (timeout, connection
refused, non-2xx status, JSON decode error), or a decoded response body. -/
inductive McpResponse where
  | transportFailure (desc : List Char)
  | body (v : JVal)

/-- The response-to-observation mapping of `do_action` (`agent.py` lines
80–94): `result` field wins, then `error` (whose `message` defaults to
`"Unknown error"`), then the malformed-envelope text; every exception inside
the `try` becomes `"Error calling MCP server: " + str(e)`.  Total: no
failure reaches the caller.

Modelling note on the final (non-object body) arm: the server under the
modelled registry always answers with an object, so this arm is out of
every theorem's scope.  It is a simplification: in Python a decoded list
or string body usually passes the membership tests as false and yields the
same malformed-envelope text, but a body containing those keys, or a
number, raises inside the `try` and yields
`"Error calling MCP server: ..."` instead. -/
def mcpObservation (resp : McpResponse) : List Char :=
  match resp with
  | .transportFailure d => cs "Error calling MCP server: " ++ d
  | .body v =>
    match v with
    | .obj fields =>
      match jLookup fields (cs "result") with
      | some r => pyStrOf r
      | none =>
        match jLookup fields (cs "error") with
        | some (.obj efields) =>
          cs "Error: " ++
            (match jLookup efields (cs "message") with
             | some m => pyStrOf m
             | none => cs "Unknown error")
        | some _ =>
          cs "Error calling MCP server: " ++ cs "object has no attribute get"
        | none => cs "Error: Invalid MCP server response"
    | _ => cs "Error: Invalid MCP server response"

/-- The JSON-RPC payload `do_action` posts (`agent.py` lines 73–78). -/
def buildPayload (tool : List Char) (args : List (List Char)) : JVal :=
  .obj [(cs "jsonrpc", .str (cs "2.0")), (cs "method", .str tool),
        (cs "params", .obj [(cs "input", .arr (args.map JVal.str))]),
        (cs "id", .str (cs "1"))]

/-- `do_action(result)` (`agent.py` lines 52–99), parametrised by the
transport `net` (what posting a payload returns).  `none` is the Python
`return None` when the action regex does not match; otherwise the returned
string is the `"Observation:\n..."` prompt for the next step. -/
def do_action (net : JVal → McpResponse) (result : List Char) : Option (List Char) :=
  match parseAction result with
  | none => none
  | some (tool, args) =>
    some (cs "Observation:\n" ++ mcpObservation (net (buildPayload tool args)))

/-- Message roles of the conversation history. -/
inductive Role where
  | system
  | user
  | assistant
deriving DecidableEq

/-- One conversation message (`{"role": ..., "content": ...}`). -/
structure Msg where
  role : Role
  content : List Char
deriving DecidableEq

/-- The `user`-message extension of one `ReActAgent.step` call: the input is
appended only when it is a non-None, non-empty string whose `strip()` is
also non-empty (`if user_input and user_input.strip():`, line 34). -/
def stepUserExt (np : Option (List Char)) : List Msg :=
  match np with
  | some s => if !s.isEmpty && !(pyStripWs s).isEmpty then [⟨.user, s⟩] else []
  | none => []

/-- `ReActAgent.step` (`agent.py` lines 31–48), with the Groq chat-completion
call abstracted as `model : List Msg → List Char` (the reply to a given
conversation).  Returns the new history and the step result. -/
def stepMsgs (model : List Msg → List Char) (msgs : List Msg) (np : Option (List Char)) :
    List Msg × List Char :=
  let msgs1 := msgs ++ stepUserExt np
  let content := model msgs1
  (msgs1 ++ [⟨.assistant, content⟩], content)

/-- The outcome of one `run_agent` call.  `retVal` is the Python return
value: `run_agent` has no `return` statement on any path, so it is `None`
both when the loop `break`s on an answer and when `range(max_iterations)` is
exhausted.  `stepsUsed` counts executed loop iterations (model calls) and
`answerText` records the step result that triggered the `break`, when one
did. -/
structure RunResult where
  messages : List Msg
  stepsUsed : Nat
  answerText : Option (List Char)
  retVal : Option (List Char)

/-- The `for _ in range(max_iterations)` loop of `run_agent` (`agent.py`
lines 111–124), by remaining iterations.  Per iteration: one `step`, then
`if "PAUSE" in result and "Action: " in result:` re-prompt with
`do_action(result)` and `continue`; else `if "Answer: " in result: break`;
else fall to the next iteration with `next_prompt` unchanged (the source
never clears it). -/
def agentLoop (model : List Msg → List Char) (net : JVal → McpResponse) :
    Nat → List Msg → Option (List Char) → RunResult
  | 0, msgs, _ => ⟨msgs, 0, none, none⟩
  | fuel + 1, msgs, np =>
    let st := stepMsgs model msgs np
    if hasSub (cs "PAUSE") st.2 && hasSub (cs "Action: ") st.2 then
      let r := agentLoop model net fuel st.1 (do_action net st.2)
      ⟨r.messages, r.stepsUsed + 1, r.answerText, r.retVal⟩
    else if hasSub (cs "Answer: ") st.2 then
      ⟨st.1, 1, some st.2, none⟩
    else
      let r := agentLoop model net fuel st.1 np
      ⟨r.messages, r.stepsUsed + 1, r.answerText, r.retVal⟩

/-- `run_agent(user_prompt)` (`agent.py` lines 102–124): a fresh agent whose
history starts with the system prompt (read from a file, hence a parameter),
then the loop with `max_iterations = 10`. -/
def run_agent (systemPrompt : List Char) (model : List Msg → List Char)
    (net : JVal → McpResponse) (userPrompt : List Char) : RunResult :=
  agentLoop model net 10 [⟨.system, systemPrompt⟩] (some userPrompt)

/-!
## Fixtures shared by witnesses and counterexamples
-/

/-- A sample one-parameter tool whose body echoes a string argument. -/
def echoTool : Tool :=
  ⟨cs "echo", [cs "text"], fun args =>
    match args with
    | [JVal.str s] => .ok (.str s)
    | _ => .ok .null⟩

/-- A sample zero-parameter tool. -/
def pingTool : Tool :=
  ⟨cs "ping", [], fun _ => .ok (.str (cs "pong"))⟩

/-- A sample tool whose body raises. -/
def boomTool : Tool :=
  ⟨cs "boom", [], fun _ => .error (.other (cs "boom"))⟩

/-- A transport that always fails (used where the network is irrelevant). -/
def exNet : JVal → McpResponse := fun _ => .transportFailure []

/-- A scripted model that never produces an `Answer:`. -/
def modelNever : List Msg → List Char := fun _ => cs "Thought: still working"

/-- A scripted model that answers immediately. -/
def modelAnswer : List Msg → List Char := fun _ => cs "Answer: done"

/-- The concrete assistant line `Action: Foo: a, 'b', "c"` of the claimed
parser example (quotes written via `sq`/`dq`). -/
def fooArgsLine : List Char :=
  cs "Action: Foo: a, " ++ [sq] ++ cs "b" ++ [sq] ++ cs ", " ++ [dq] ++ cs "c" ++ [dq]

/-- Modelled from the spec: the grammar of §4.1, "a line matching
`Action: <identifier>[: <args>]`", read as a property of one single line —
some occurrence of the literal `Action:` followed (after optional
whitespace, within the line) by at least one identifier character.  Used
only to compare the spec's line-based wording against the source's
line-blind `re.search`. -/
def lineMatchesActionGrammar : List Char → Bool
  | [] => false
  | c :: rest =>
    ((cs "Action:").isPrefixOf (c :: rest)
      && !(((List.drop 7 (c :: rest)).dropWhile pyIsSpace).takeWhile isWordChar).isEmpty)
    || lineMatchesActionGrammar rest

/-!
## Claims about `invoke_tool` and `mcp_endpoint`
-/

/-- C6: argument resolution in `invoke_tool` succeeds in the three listed
shapes — a zero-parameter tool with absent input runs with no arguments, a
one-parameter tool with a single string input runs with that value, and an
N-parameter tool with a list of exactly N elements runs positionally with
the list elements in order.  In each case the result is exactly the body
applied to those arguments and the invocation flag is set. -/
theorem invoke_tool_resolution_shapes :
    (∀ (n : List Char) (b : List JVal → Except PyErr JVal),
      invoke_tool ⟨n, [], b⟩ (.obj []) = (b [], true)) ∧
    (∀ (n p : List Char) (b : List JVal → Except PyErr JVal) (s : List Char),
      invoke_tool ⟨n, [p], b⟩ (.obj [(cs "input", .str s)]) = (b [.str s], true)) ∧
    (∀ (n : List Char) (ps : List (List Char)) (b : List JVal → Except PyErr JVal)
       (args : List JVal), args.length = ps.length →
      invoke_tool ⟨n, ps, b⟩ (.obj [(cs "input", .arr args)]) = (b args, true)) := by
  refine ⟨fun n b => rfl, fun n p b s => rfl, fun n ps b args h => ?_⟩
  simp [invoke_tool, jGet, jLookup, callArgs, h]

/-- Witness for C6: the three shapes at concrete inputs. -/
theorem invoke_tool_resolution_shapes_witness :
    invoke_tool pingTool (.obj []) = (pingTool.body [], true) ∧
    invoke_tool echoTool (.obj [(cs "input", .str (cs "hi"))])
      = (echoTool.body [.str (cs "hi")], true) ∧
    invoke_tool echoTool (.obj [(cs "input", .arr [.str (cs "hi")])])
      = (echoTool.body [.str (cs "hi")], true) :=
  ⟨invoke_tool_resolution_shapes.1 (cs "ping") pingTool.body,
   invoke_tool_resolution_shapes.2.1 (cs "echo") (cs "text") echoTool.body (cs "hi"),
   invoke_tool_resolution_shapes.2.2 (cs "echo") [cs "text"] echoTool.body
     [.str (cs "hi")] (by decide)⟩

/-- C2: in the source, precedence rule (a) does **not** require a
zero-parameter callable: `invoke_tool` checks only `input_data is None`
(line 75) and immediately calls `tool_func()`.  Against the one-parameter
tool `get_relevant_code`, a request with absent input therefore triggers a
`TypeError` at argument binding (Python's
`get_relevant_code() missing 1 required positional argument`, modelled
here as the binding `TypeError` of `callArgs`) instead of falling through
to the rule (e) `ValueError`; the endpoint surfaces it as `-32603`.  The
tool body is never run (`false` flag), and the result is independent of the
body `b`.  This contradicts the source's own comment on line 74 ("If no
input is provided and the function takes no parameters") and the spec's
rule (a)/(e), so the code, not the claim, is wrong. -/
theorem invoke_tool_null_input_bypasses_arity_check :
    ∀ b : List JVal → Except PyErr JVal,
      (invoke_tool ⟨cs "get_relevant_code", [cs "query"], b⟩ (.obj []) =
        (.error (.typeError
          (cs "get_relevant_code() takes 1 positional arguments but 0 were given")), false)) ∧
      (mcp_endpoint [(cs "GetRelevantCode", ⟨cs "get_relevant_code", [cs "query"], b⟩)]
          (.ok (.obj [(cs "jsonrpc", .str (cs "2.0")),
                      (cs "method", .str (cs "GetRelevantCode")),
                      (cs "params", .obj []), (cs "id", .str (cs "1"))])) =
        (errorEnvelope JVal.null (-32603)
          (cs "get_relevant_code() takes 1 positional arguments but 0 were given"), false)) := by
  intro b
  refine ⟨?_, ?_⟩ <;>
    simp [invoke_tool, jGet, jLookup, callArgs, mcp_endpoint, methodLookup, toolLookup,
      methodValOf, paramsValOf, idValOf, errorEnvelope, intDigits, cs] <;>
    decide

/-- C10: for any registered tool declaring at least one parameter
(`p0 :: ps`), the payload the agent-side client builds for a no-argument
action (`params.input = []`) never invokes the tool: `invoke_tool` falls
through every rule to the rule (e) `ValueError` naming the input and the
callable, the endpoint converts it to a `-32603` envelope, and the client
turns that into an `"Error: ..."` observation. -/
theorem empty_input_list_never_invokes_tool :
    ∀ (rpcName fname p0 : List Char) (ps : List (List Char))
      (b : List JVal → Except PyErr JVal),
      (invoke_tool ⟨fname, p0 :: ps, b⟩ (.obj [(cs "input", .arr [])]) =
        (.error (.valueError (cs "Cannot map input [] to function " ++ fname)), false)) ∧
      (mcp_endpoint [(rpcName, ⟨fname, p0 :: ps, b⟩)] (.ok (buildPayload rpcName [])) =
        (errorEnvelope JVal.null (-32603)
          (cs "Cannot map input [] to function " ++ fname), false)) ∧
      (mcpObservation (.body (mcp_endpoint [(rpcName, ⟨fname, p0 :: ps, b⟩)]
          (.ok (buildPayload rpcName []))).1) =
        cs "Error: Cannot map input [] to function " ++ fname) := by
  intro rpcName fname p0 ps b
  refine ⟨?_, ?_, ?_⟩ <;>
    simp [mcp_endpoint, buildPayload, methodLookup, toolLookup, methodValOf, paramsValOf,
      idValOf, jGet, jLookup, invoke_tool, mcpObservation, errorEnvelope, cs, pyStrOf,
      pyRepr, pyReprList, joinCommaSep, List.intercalate, PyErr.msg]

/-- C3 counterexample: the claim covers *every* request whose method is not
in the registered mapping, but a JSON-array method value is unhashable, so
`method not in tools` (line 113) itself raises `TypeError: unhashable
type: 'list'`, and the endpoint's `except` returns `-32603` with `id: null`
— not the claimed `-32601` envelope echoing the id. -/
theorem mcp_endpoint_unhashable_method_counterexample :
    mcp_endpoint [(cs "Echo", echoTool)]
        (.ok (.obj [(cs "method", .arr [.str (cs "x")]), (cs "params", .obj []),
                    (cs "id", .str (cs "1"))])) =
      (errorEnvelope JVal.null (-32603)
        (cs "unhashable type: " ++ [sq] ++ cs "list" ++ [sq]), false) ∧
    ¬ ((mcp_endpoint [(cs "Echo", echoTool)]
        (.ok (.obj [(cs "method", .arr [.str (cs "x")]), (cs "params", .obj []),
                    (cs "id", .str (cs "1"))]))).1 =
      errorEnvelope (.str (cs "1")) (-32601)
        (cs "Unknown method: " ++ pyStrOfPyOpt (some (.arr [.str (cs "x")])))) := by
  constructor
  · rfl
  · show ¬ (errorEnvelope JVal.null (-32603)
        (cs "unhashable type: " ++ [sq] ++ cs "list" ++ [sq]) = _)
    simp [errorEnvelope, cs]

/-- C3 (amended): for every request whose method value admits the dict
membership test — absent, `null`, a number, or a string, and in particular
every string method, which is all the agent-side client ever sends — and is
not in the registered mapping, the endpoint returns the `-32601` envelope
with message `"Unknown method: <method>"`, echoing the request's `id`, and
no tool callable is invoked (flag `false`).  A method value that is a JSON
array or object instead raises `TypeError` in the membership test itself
and surfaces as `-32603` with `id: null`, again without invoking any
tool. -/
theorem mcp_endpoint_unknown_method :
    (∀ (tools : List (List Char × Tool)) (fields : List (List Char × JVal)),
      methodLookup tools (methodValOf fields) = .ok none →
      mcp_endpoint tools (.ok (.obj fields)) =
        (errorEnvelope (idValOf fields) (-32601)
          (cs "Unknown method: " ++ pyStrOfPyOpt (methodValOf fields)), false)) ∧
    (∀ (tools : List (List Char × Tool)) (fields : List (List Char × JVal))
       (xs : List JVal),
      methodValOf fields = some (.arr xs) →
      mcp_endpoint tools (.ok (.obj fields)) =
        (errorEnvelope JVal.null (-32603)
          (cs "unhashable type: " ++ [sq] ++ cs "list" ++ [sq]), false)) ∧
    (∀ (tools : List (List Char × Tool)) (fields : List (List Char × JVal))
       (d : List (List Char × JVal)),
      methodValOf fields = some (.obj d) →
      mcp_endpoint tools (.ok (.obj fields)) =
        (errorEnvelope JVal.null (-32603)
          (cs "unhashable type: " ++ [sq] ++ cs "dict" ++ [sq]), false)) := by
  refine ⟨?_, ?_, ?_⟩
  · intro tools fields h
    simp [mcp_endpoint, h]
  · intro tools fields xs h
    simp [mcp_endpoint, methodLookup, h, PyErr.msg]
  · intro tools fields d h
    simp [mcp_endpoint, methodLookup, h, PyErr.msg]

/-- Witness for C3: spec scenario 2, `{method: "Nope", params: {}}` against
a registry without `Nope`, plus an array-valued and an object-valued
method. -/
theorem mcp_endpoint_unknown_method_witness :
    mcp_endpoint [(cs "Echo", echoTool)]
        (.ok (.obj [(cs "method", .str (cs "Nope")), (cs "params", .obj []),
                    (cs "id", .str (cs "7"))])) =
      (errorEnvelope (.str (cs "7")) (-32601) (cs "Unknown method: Nope"), false) ∧
    mcp_endpoint [(cs "Echo", echoTool)]
        (.ok (.obj [(cs "method", .arr []), (cs "id", .str (cs "7"))])) =
      (errorEnvelope JVal.null (-32603)
        (cs "unhashable type: " ++ [sq] ++ cs "list" ++ [sq]), false) ∧
    mcp_endpoint [(cs "Echo", echoTool)]
        (.ok (.obj [(cs "method", .obj []), (cs "id", .str (cs "7"))])) =
      (errorEnvelope JVal.null (-32603)
        (cs "unhashable type: " ++ [sq] ++ cs "dict" ++ [sq]), false) :=
  ⟨mcp_endpoint_unknown_method.1 [(cs "Echo", echoTool)]
     [(cs "method", .str (cs "Nope")), (cs "params", .obj []), (cs "id", .str (cs "7"))] rfl,
   mcp_endpoint_unknown_method.2.1 [(cs "Echo", echoTool)]
     [(cs "method", .arr []), (cs "id", .str (cs "7"))] [] rfl,
   mcp_endpoint_unknown_method.2.2 [(cs "Echo", echoTool)]
     [(cs "method", .obj []), (cs "id", .str (cs "7"))] [] rfl⟩

/-- A resolved registered tool means the membership test succeeded: when
`toolOf` finds `t`, the method value is a registered string, so
`methodLookup` returns `.ok (some t)`. -/
lemma methodLookup_of_toolOf (tools : List (List Char × Tool))
    (fields : List (List Char × JVal)) (t : Tool) (h : toolOf tools fields = some t) :
    methodLookup tools (methodValOf fields) = .ok (some t) := by
  unfold toolOf at h
  split at h
  · rename_i s heq
    rw [heq]
    simp [methodLookup, h]
  · cases h

/-- C4: every failure on the endpoint's `try` path becomes the envelope
`{id: null, error: {code: -32603, message: str(e)}}` — the request's `id`
is dropped — and no failure escapes (`mcp_endpoint` is a total function by
construction).  Conjunct 1: a failure while parsing the request body.
Conjunct 2: any failure out of `invoke_tool` (argument resolution or tool
execution) of a registered method. -/
theorem mcp_endpoint_failure_paths :
    (∀ (tools : List (List Char × Tool)) (e : PyErr),
      mcp_endpoint tools (.error e) = (errorEnvelope JVal.null (-32603) e.msg, false)) ∧
    (∀ (tools : List (List Char × Tool)) (fields : List (List Char × JVal))
       (t : Tool) (e : PyErr) (inv : Bool),
      toolOf tools fields = some t →
      invoke_tool t (paramsValOf fields) = (.error e, inv) →
      mcp_endpoint tools (.ok (.obj fields)) =
        (errorEnvelope JVal.null (-32603) e.msg, inv)) := by
  refine ⟨fun tools e => rfl, ?_⟩
  intro tools fields t e inv h1 h2
  simp [mcp_endpoint, methodLookup_of_toolOf tools fields t h1, h2]

/-- Witness for C4: a parse failure, and a registered tool whose body
raises `"boom"`; both produce the id-less `-32603` envelope. -/
theorem mcp_endpoint_failure_paths_witness :
    mcp_endpoint [(cs "Boom", boomTool)] (.error (.other (cs "bad json"))) =
      (errorEnvelope JVal.null (-32603) (cs "bad json"), false) ∧
    mcp_endpoint [(cs "Boom", boomTool)]
        (.ok (.obj [(cs "method", .str (cs "Boom")), (cs "params", .obj []),
                    (cs "id", .str (cs "9"))])) =
      (errorEnvelope JVal.null (-32603) (cs "boom"), true) :=
  ⟨mcp_endpoint_failure_paths.1 [(cs "Boom", boomTool)] (.other (cs "bad json")),
   mcp_endpoint_failure_paths.2 [(cs "Boom", boomTool)]
     [(cs "method", .str (cs "Boom")), (cs "params", .obj []), (cs "id", .str (cs "9"))]
     boomTool (.other (cs "boom")) true rfl rfl⟩

/-!
## Claims about the action parser and the RPC client
-/

/-- Helper for the parser scan: pushing a character that does not start an
`Action:` occurrence onto a text ending in `fooArgsLine` cannot create one.
If `Action:` is not a prefix of `c :: pre'` it is not a prefix of
`(c :: pre') ++ fooArgsLine` either: a prefix fitting inside `c :: pre'`
would contradict the hypothesis, and a prefix reaching across the boundary
would force some character of `"ction:"` to equal the `'A'` that starts
`fooArgsLine`. -/
lemma isPrefixOf_action_append_false (c : Char) (pre' : List Char)
    (h1 : (cs "Action:").isPrefixOf (c :: pre') = false) :
    (cs "Action:").isPrefixOf ((c :: pre') ++ fooArgsLine) = false := by
  by_contra hne
  rw [Bool.not_eq_false] at hne
  have hpfx : cs "Action:" <+: ((c :: pre') ++ fooArgsLine) :=
    List.isPrefixOf_iff_prefix.mp hne
  rcases Nat.lt_or_ge (c :: pre').length 7 with hlt | hge
  · obtain ⟨t, ht⟩ := hpfx
    have e1 : ((c :: pre') ++ fooArgsLine)[(c :: pre').length]? = some 'A' := by
      rw [List.getElem?_append_right (le_refl _)]
      simp
      rfl
    have e2 : ((c :: pre') ++ fooArgsLine)[(c :: pre').length]? =
        (cs "Action:")[(c :: pre').length]? := by
      rw [← ht]
      exact List.getElem?_append_left (by simpa [cs] using hlt)
    rw [e2] at e1
    simp only [List.length_cons] at e1
    have hk6 : pre'.length < 6 := by
      have := hlt
      simp only [List.length_cons] at this
      omega
    revert e1
    generalize pre'.length = n at hk6 ⊢
    interval_cases n <;> decide
  · have h2 : cs "Action:" <+: (c :: pre') :=
      List.prefix_of_prefix_length_le hpfx (List.prefix_append _ _) (by simpa [cs] using hge)
    rw [← List.isPrefixOf_iff_prefix] at h2
    rw [h1] at h2
    exact Bool.false_ne_true h2

/-- C5 counterexample: the claim quantifies over *any* text containing the
line `Action: Foo: a, 'b', "c"`, but `re.search` takes the leftmost
`Action:` occurrence.  The text `"Action: Bar\n" ++ fooArgsLine` contains
that exact line, yet the parser yields `("Bar", [])`, not
`("Foo", ["a","b","c"])`. -/
theorem parseAction_leftmost_match_counterexample :
    parseAction (cs "Action: Bar" ++ ['\n'] ++ fooArgsLine) = some (cs "Bar", []) ∧
    fooArgsLine ∈ splitOnChar '\n' (cs "Action: Bar" ++ ['\n'] ++ fooArgsLine) ∧
    ¬ parseAction (cs "Action: Bar" ++ ['\n'] ++ fooArgsLine)
        = some (cs "Foo", [cs "a", cs "b", cs "c"]) := by decide

/-- C5 (amended): for any text made of a prefix with no `Action:`
occurrence followed by the line `Action: Foo: a, 'b', "c"` — i.e. whenever
that line holds the leftmost match — the parser produces tool name `Foo`
and the arguments `["a", "b", "c"]`, split on commas, stripped of
surrounding whitespace and of enclosing quote characters, in order. -/
theorem parseAction_foo_line :
    ∀ pre : List Char, hasSub (cs "Action:") pre = false →
      parseAction (pre ++ fooArgsLine) = some (cs "Foo", [cs "a", cs "b", cs "c"]) := by
  intro pre
  induction pre with
  | nil => intro _; decide
  | cons c pre' ih =>
    intro h
    simp only [hasSub, Bool.or_eq_false_iff] at h
    obtain ⟨h1, h2⟩ := h
    have hp : (cs "Action:").isPrefixOf ((c :: pre') ++ fooArgsLine) = false :=
      isPrefixOf_action_append_false c pre' h1
    rw [List.cons_append] at hp
    simp only [parseAction, List.cons_append, findActionFrom, List.append_eq]
    rw [hp]
    simp only [Bool.false_eq_true, if_false]
    exact ih h2

/-- Witness for C5: the line preceded by an ordinary thought/pause prefix. -/
theorem parseAction_foo_line_witness :
    parseAction (cs "Thought: call Foo. PAUSE" ++ ['\n'] ++ fooArgsLine) =
      some (cs "Foo", [cs "a", cs "b", cs "c"]) :=
  parseAction_foo_line (cs "Thought: call Foo. PAUSE" ++ ['\n']) (by decide)

/-- C8 counterexample: `\s*` in the action regex crosses newlines, so the
text `"Action:\nFoo"` — neither of whose two lines matches the spec's
line grammar `Action: <identifier>[: <args>]` (checked against the
spec-modelled `lineMatchesActionGrammar`) — still parses to the action
`("Foo", [])` rather than the claimed "no action" result. -/
theorem parseAction_no_grammar_line_counterexample :
    ((splitOnChar '\n' (cs "Action:" ++ ['\n'] ++ cs "Foo")).all
        (fun l => !(lineMatchesActionGrammar l))) = true ∧
    parseAction (cs "Action:" ++ ['\n'] ++ cs "Foo") = some (cs "Foo", []) := by decide

/-- C8 (amended): for any text with no occurrence of the substring
`Action:` at all, the parser returns the explicit "no action" result
(`none`, the Python `return None`), and — being a total function — never
raises, so the caller can distinguish an answer from a malformed action. -/
theorem parseAction_no_marker_none :
    ∀ t : List Char, hasSub (cs "Action:") t = false → parseAction t = none := by
  intro t
  induction t with
  | nil => intro _; rfl
  | cons c rest ih =>
    intro h
    simp only [hasSub, Bool.or_eq_false_iff] at h
    obtain ⟨h1, h2⟩ := h
    simp only [parseAction, findActionFrom, h1, Bool.false_eq_true, if_false]
    exact ih h2

/-- Witness for C8: a plain answer text parses to "no action". -/
theorem parseAction_no_marker_none_witness :
    parseAction (cs "The answer is 42") = none :=
  parseAction_no_marker_none (cs "The answer is 42") (by decide)

/-- C7: the RPC client phase of `do_action` maps every response to an
observation string and never raises: a `result` field yields the
stringified result; an `error` field yields `"Error: "` plus its message
(defaulting to `"Unknown error"`); neither field yields
`"Error: Invalid MCP server response"`; a transport failure yields
`"Error calling MCP server: "` plus the failure description; and on any
parsed action `do_action` returns the observation wrapped in the next
prompt — all functions here are total, so no failure propagates to the
loop. -/
theorem do_action_observation_mapping :
    (∀ d : List Char,
      mcpObservation (.transportFailure d) = cs "Error calling MCP server: " ++ d) ∧
    (∀ (fields : List (List Char × JVal)) (r : JVal),
      jLookup fields (cs "result") = some r →
      mcpObservation (.body (.obj fields)) = pyStrOf r) ∧
    (∀ (fields efields : List (List Char × JVal)) (m : JVal),
      jLookup fields (cs "result") = none →
      jLookup fields (cs "error") = some (.obj efields) →
      jLookup efields (cs "message") = some m →
      mcpObservation (.body (.obj fields)) = cs "Error: " ++ pyStrOf m) ∧
    (∀ fields efields : List (List Char × JVal),
      jLookup fields (cs "result") = none →
      jLookup fields (cs "error") = some (.obj efields) →
      jLookup efields (cs "message") = none →
      mcpObservation (.body (.obj fields)) = cs "Error: Unknown error") ∧
    (∀ fields : List (List Char × JVal),
      jLookup fields (cs "result") = none →
      jLookup fields (cs "error") = none →
      mcpObservation (.body (.obj fields)) = cs "Error: Invalid MCP server response") ∧
    (∀ (net : JVal → McpResponse) (result tool : List Char) (args : List (List Char)),
      parseAction result = some (tool, args) →
      do_action net result =
        some (cs "Observation:\n" ++ mcpObservation (net (buildPayload tool args)))) := by
  refine ⟨fun d => rfl, ?_, ?_, ?_, ?_, ?_⟩
  · intro fields r h
    simp [mcpObservation, h]
  · intro fields efields m h1 h2 h3
    simp [mcpObservation, h1, h2, h3]
  · intro fields efields h1 h2 h3
    simp [mcpObservation, h1, h2, h3]
    rfl
  · intro fields h1 h2
    simp [mcpObservation, h1, h2]
  · intro net result tool args h
    simp [do_action, h]

/-- Witness for C7: each response shape at a concrete envelope. -/
theorem do_action_observation_mapping_witness :
    mcpObservation (.transportFailure (cs "timeout")) =
      cs "Error calling MCP server: " ++ cs "timeout" ∧
    mcpObservation (.body (.obj [(cs "result", .str (cs "hi"))])) = pyStrOf (.str (cs "hi")) ∧
    mcpObservation (.body (.obj [(cs "error", .obj [(cs "message", .str (cs "bad"))])])) =
      cs "Error: " ++ pyStrOf (.str (cs "bad")) ∧
    mcpObservation (.body (.obj [(cs "error", .obj [])])) = cs "Error: Unknown error" ∧
    mcpObservation (.body (.obj [])) = cs "Error: Invalid MCP server response" ∧
    do_action exNet (cs "PAUSE Action: Ping") =
      some (cs "Observation:\n" ++
        mcpObservation (exNet (buildPayload (cs "Ping") []))) :=
  ⟨do_action_observation_mapping.1 (cs "timeout"),
   do_action_observation_mapping.2.1 _ _ rfl,
   do_action_observation_mapping.2.2.1 _ [(cs "message", .str (cs "bad"))] _ rfl rfl rfl,
   do_action_observation_mapping.2.2.2.1 _ [] rfl rfl rfl,
   do_action_observation_mapping.2.2.2.2.1 _ rfl rfl,
   do_action_observation_mapping.2.2.2.2.2 exNet _ _ _ (by decide)⟩

/-!
## Claims about the conversation state and the agent loop
-/

/-- One `step` call only appends to the history: the new history is the old
one plus the optional user message and one assistant message. -/
lemma stepMsgs_appendOnly (model : List Msg → List Char) (msgs : List Msg)
    (np : Option (List Char)) : msgs <+: (stepMsgs model msgs np).1 := by
  simp only [stepMsgs]
  rw [List.append_assoc]
  exact List.prefix_append _ _

/-- The loop only ever extends the history it is given. -/
lemma agentLoop_messages_extend (model : List Msg → List Char) (net : JVal → McpResponse) :
    ∀ (fuel : Nat) (msgs : List Msg) (np : Option (List Char)),
      msgs <+: (agentLoop model net fuel msgs np).messages := by
  intro fuel
  induction fuel with
  | zero => intro msgs np; exact List.prefix_refl _
  | succ n ih =>
    intro msgs np
    simp only [agentLoop]
    split
    · exact (stepMsgs_appendOnly model msgs np).trans (ih _ _)
    · split
      · exact stepMsgs_appendOnly model msgs np
      · exact (stepMsgs_appendOnly model msgs np).trans (ih _ _)

/-- Termination bookkeeping of the loop: at most `fuel` iterations run; a
run without an answer uses exactly `fuel` iterations; an answer-terminated
run ended on a step result containing `"Answer: "` without the
`PAUSE`/`"Action: "` pair; and the Python return value is `None` on every
path. -/
lemma agentLoop_spec (model : List Msg → List Char) (net : JVal → McpResponse) :
    ∀ (fuel : Nat) (msgs : List Msg) (np : Option (List Char)),
      (agentLoop model net fuel msgs np).stepsUsed ≤ fuel ∧
      ((agentLoop model net fuel msgs np).answerText = none →
        (agentLoop model net fuel msgs np).stepsUsed = fuel) ∧
      (∀ t, (agentLoop model net fuel msgs np).answerText = some t →
        hasSub (cs "Answer: ") t = true ∧
        (hasSub (cs "PAUSE") t && hasSub (cs "Action: ") t) = false) ∧
      (agentLoop model net fuel msgs np).retVal = none := by
  intro fuel
  induction fuel with
  | zero =>
    intro msgs np
    refine ⟨Nat.le_refl _, fun _ => rfl, fun t h => ?_, rfl⟩
    simp [agentLoop] at h
  | succ n ih =>
    intro msgs np
    simp only [agentLoop]
    split
    · obtain ⟨ih1, ih2, ih3, ih4⟩ :=
        ih (stepMsgs model msgs np).1 (do_action net (stepMsgs model msgs np).2)
      refine ⟨Nat.succ_le_succ ih1, ?_, ih3, ih4⟩
      intro h
      rw [ih2 h]
    · rename_i hc1
      split
      · rename_i hc2
        refine ⟨Nat.succ_le_succ (Nat.zero_le n), ?_, ?_, rfl⟩
        · intro h
          simp at h
        · intro t ht
          change some (stepMsgs model msgs np).2 = some t at ht
          cases ht
          exact ⟨hc2, by simpa using hc1⟩
      · obtain ⟨ih1, ih2, ih3, ih4⟩ := ih (stepMsgs model msgs np).1 np
        refine ⟨Nat.succ_le_succ ih1, ?_, ih3, ih4⟩
        intro h
        rw [ih2 h]

/-- C9: the conversation is append-only and system-rooted: one `step`
appends at most one user message (only for non-empty, non-whitespace input)
followed by exactly one assistant message and touches nothing else; the
loop only ever extends the history it starts from; and after any full
`run_agent` run the first message is still the system message fixed at
construction. -/
theorem conversation_append_only :
    (∀ (model : List Msg → List Char) (msgs : List Msg) (np : Option (List Char)),
      ∃ u : List Msg,
        (stepMsgs model msgs np).1 = msgs ++ u ++ [⟨.assistant, model (msgs ++ u)⟩] ∧
        (u = [] ∨ ∃ s : List Char, np = some s ∧
          (!s.isEmpty && !(pyStripWs s).isEmpty) = true ∧ u = [⟨.user, s⟩])) ∧
    (∀ (model : List Msg → List Char) (net : JVal → McpResponse) (fuel : Nat)
       (msgs : List Msg) (np : Option (List Char)),
      msgs <+: (agentLoop model net fuel msgs np).messages) ∧
    (∀ (sys prompt : List Char) (model : List Msg → List Char) (net : JVal → McpResponse),
      (run_agent sys model net prompt).messages.head? = some ⟨.system, sys⟩) := by
  refine ⟨?_, fun model net => agentLoop_messages_extend model net, ?_⟩
  · intro model msgs np
    refine ⟨stepUserExt np, rfl, ?_⟩
    cases np with
    | none => exact Or.inl rfl
    | some s =>
      by_cases hcond : (!s.isEmpty && !(pyStripWs s).isEmpty) = true
      · exact Or.inr ⟨s, rfl, hcond, by simp [stepUserExt, hcond]⟩
      · rw [Bool.not_eq_true] at hcond
        exact Or.inl (by simp [stepUserExt, hcond])
  · intro sys prompt model net
    obtain ⟨t, ht⟩ := agentLoop_messages_extend model net 10 [⟨.system, sys⟩] (some prompt)
    simp only [run_agent]
    rw [← ht]
    rfl

/-- C1 counterexample: ceiling exhaustion is *not* surfaced to the caller.
With a scripted model that never emits `Answer:` the loop runs exactly 10
iterations and `run_agent` returns Python `None` (`retVal = none`) — the
very same return value as a run that answers immediately — so the caller
receives no incomplete-run condition: a silent return, contradicting the
claim's "not a silent return". -/
theorem run_agent_ceiling_silent_return :
    (run_agent (cs "sys") modelNever exNet (cs "go")).answerText = none ∧
    (run_agent (cs "sys") modelNever exNet (cs "go")).stepsUsed = 10 ∧
    (run_agent (cs "sys") modelNever exNet (cs "go")).retVal = none ∧
    (run_agent (cs "sys") modelAnswer exNet (cs "go")).retVal = none := by decide

/-- C1 (amended): `run_agent` performs at most 10 model-call cycles; it
stops early exactly on a step result containing `"Answer: "` without the
`PAUSE` + `"Action: "` pair (final conjunct: such a step ends the loop at
once); a run that never answers uses exactly 10 cycles; and on *every*
path the function returns Python `None` — ceiling exhaustion is a silent
return, not a surfaced incomplete-run condition and not an exception. -/
theorem run_agent_termination :
    ∀ (sys prompt : List Char) (model : List Msg → List Char) (net : JVal → McpResponse),
      ((run_agent sys model net prompt).stepsUsed ≤ 10) ∧
      ((run_agent sys model net prompt).answerText = none →
        (run_agent sys model net prompt).stepsUsed = 10) ∧
      (∀ t, (run_agent sys model net prompt).answerText = some t →
        hasSub (cs "Answer: ") t = true ∧
        (hasSub (cs "PAUSE") t && hasSub (cs "Action: ") t) = false) ∧
      ((run_agent sys model net prompt).retVal = none) ∧
      (∀ (fuel : Nat) (msgs : List Msg) (np : Option (List Char)),
        (hasSub (cs "PAUSE") (stepMsgs model msgs np).2
          && hasSub (cs "Action: ") (stepMsgs model msgs np).2) = false →
        hasSub (cs "Answer: ") (stepMsgs model msgs np).2 = true →
        agentLoop model net (fuel + 1) msgs np =
          ⟨(stepMsgs model msgs np).1, 1, some (stepMsgs model msgs np).2, none⟩) := by
  intro sys prompt model net
  obtain ⟨h1, h2, h3, h4⟩ := agentLoop_spec model net 10 [⟨.system, sys⟩] (some prompt)
  refine ⟨h1, h2, h3, h4, ?_⟩
  intro fuel msgs np hfalse htrue
  simp only [agentLoop, hfalse, htrue, Bool.false_eq_true, if_false, if_true]

/-- Witness for C1: a never-answering script exhausts the 10-cycle ceiling,
and an immediately-answering script stops after one cycle. -/
theorem run_agent_termination_witness :
    (run_agent (cs "sys") modelNever exNet (cs "go")).stepsUsed = 10 ∧
    (hasSub (cs "Answer: ") (cs "Answer: done") = true ∧
      (hasSub (cs "PAUSE") (cs "Answer: done")
        && hasSub (cs "Action: ") (cs "Answer: done")) = false) ∧
    agentLoop modelAnswer exNet 10 [⟨.system, cs "sys"⟩] (some (cs "go")) =
      ⟨(stepMsgs modelAnswer [⟨.system, cs "sys"⟩] (some (cs "go"))).1, 1,
        some (cs "Answer: done"), none⟩ := by
  refine ⟨?_, ?_, ?_⟩
  · exact (run_agent_termination (cs "sys") (cs "go") modelNever exNet).2.1 (by decide)
  · exact (run_agent_termination (cs "sys") (cs "go") modelAnswer exNet).2.2.1
      (cs "Answer: done") (by decide)
  · exact (run_agent_termination (cs "sys") (cs "go") modelAnswer exNet).2.2.2.2
      9 [⟨.system, cs "sys"⟩] (some (cs "go")) (by decide) (by decide)

end AiAgent
